import Mathlib

/-!
# Verification of the Kannel WAP application layer (`gw/wap-appl.c`)

A shallow embedding of the wapbox application layer: URL-map rewriting,
the content-converter registry, the request assembler (`start_fetch`),
the reply dispatcher (`return_reply`) and the push header decoding
(`check_application_headers`).  C octet strings (`Octstr`) are modelled as
`List Char` of their contents (the terminating NUL is not stored; where C
code reads the NUL explicitly, the model makes that read explicit).
HTTP header lists are lists of (name, value) pairs; gwlib header-name
comparisons are case-insensitive.

gwlib (`gwlib/http.c`, `gwlib/octstr.c`, `gwlib/list.c`), `wap-error.c`
and the WML/WMLScript compilers are not part of the supplied sources;
those helpers are modelled from the specification (each such definition
carries a `Modelled from the spec:` note) or kept abstract as fields of
the environment `Env` (the compilers and the error-deck constructors).
The module is modelled as built without `ENABLE_COOKIES`.
-/

/-- C string contents (a NUL-terminated byte string, without the NUL). -/
abbrev CStr := List Char

/-- ASCII `tolower`, as used by gwlib's case-insensitive compares. -/
def lowerChar (c : Char) : Char :=
  if 'A' ≤ c ∧ c ≤ 'Z' then Char.ofNat (c.toNat + 32) else c

/-- Lower-case an entire string. -/
def lowerStr (s : CStr) : CStr := s.map lowerChar

/-- Case-insensitive string equality (gwlib `octstr_case_compare == 0`). -/
def ciEq (a b : CStr) : Bool := lowerStr a == lowerStr b

/-- An HTTP header: a (name, value) pair.  gwlib stores headers as single
octet strings `Name: value`; the split form is equivalent for this layer. -/
abbrev Header := CStr × CStr

abbrev Headers := List Header

/-- Header-name equality is case-insensitive, as in gwlib. -/
def nameEq (a b : CStr) : Bool := ciEq a b

/-- gwlib `http_header_add`: append a header to the list. -/
def http_header_add (hs : Headers) (name value : CStr) : Headers :=
  hs ++ [(name, value)]

/-- gwlib `http_header_remove_all`: drop every header with the given
field name (case-insensitively) and return the new list together with the
number of headers removed (the C function's return value). -/
def http_header_remove_all (hs : Headers) (name : CStr) : Headers × Nat :=
  (hs.filter (fun h => !nameEq h.1 name),
   (hs.filter (fun h => nameEq h.1 name)).length)

/-- Does the list carry a header with this field name? -/
def containsName (hs : Headers) (name : CStr) : Bool :=
  hs.any (fun h => nameEq h.1 name)

/-- The hop-by-hop header names of RFC 2616 §13.5.1.
Modelled from the spec: gwlib's `http_remove_hop_headers` is not among the
supplied sources; the spec says every outgoing reply "strips hop-by-hop
headers" and its glossary defines them as the RFC 2616 set
(e.g. Connection, Keep-Alive). -/
def hopHeaderNames : List CStr :=
  ["Connection".data, "Keep-Alive".data, "Proxy-Authenticate".data,
   "Proxy-Authorization".data, "TE".data, "Trailers".data,
   "Transfer-Encoding".data, "Upgrade".data]

/-- Is this name a hop-by-hop header name (case-insensitively)? -/
def isHopName (name : CStr) : Bool :=
  hopHeaderNames.any (fun n => nameEq name n)

/-- gwlib `http_remove_hop_headers` (modelled from the spec, see
`hopHeaderNames`): remove every hop-by-hop header. -/
def http_remove_hop_headers (hs : Headers) : Headers :=
  hs.filter (fun h => !isHopName h.1)

/-- Blank characters stripped by gwlib `octstr_strip_blanks`. -/
def isBlankChar (c : Char) : Bool :=
  c == ' ' || c == '\t' || c == '\r' || c == '\n'

/-- gwlib `octstr_strip_blanks`: drop leading and trailing blanks.
Modelled from the spec (gwlib is not among the supplied sources). -/
def stripBlanks (s : CStr) : CStr :=
  (s.dropWhile isBlankChar).reverse.dropWhile isBlankChar |>.reverse

/-- Split a string at every occurrence of a character. -/
def splitAtChar (s : CStr) (c : Char) : List CStr :=
  go s []
where
  go : CStr → CStr → List CStr
    | [], acc => [acc.reverse]
    | x :: xs, acc =>
        if x == c then acc.reverse :: go xs [] else go xs (x :: acc)

/-- gwlib `http_header_in_element` (modelled from the spec: "the client
did not advertise acceptance of the current content type"): does some
header with the given field name list the element among its
comma-separated values (case-insensitively)? -/
def http_header_in_element (hs : Headers) (name elem : CStr) : Bool :=
  hs.any (fun h =>
    nameEq h.1 name &&
    (splitAtChar h.2 ',').any (fun e => ciEq (stripBlanks e) elem))

/-- gwlib `http_type_accepted`: is the MIME type listed in an `Accept`
header? -/
def http_type_accepted (hs : Headers) (ctype : CStr) : Bool :=
  http_header_in_element hs "Accept".data ctype

/-- gwlib `http_charset_accepted`: is the charset listed in an
`Accept-Charset` header? -/
def http_charset_accepted (hs : Headers) (charset : CStr) : Bool :=
  http_header_in_element hs "Accept-Charset".data charset

/-- gwlib `http_header_mark_transformation` (modelled from the spec:
"mark the transformation"): replace the entity headers that described the
old body with ones describing the transformed body. -/
def http_header_mark_transformation (hs : Headers) (body ctype : CStr) :
    Headers :=
  let hs := (http_header_remove_all hs "Content-Length".data).1
  let hs := (http_header_remove_all hs "Content-MD5".data).1
  let hs := (http_header_remove_all hs "Content-Type".data).1
  let hs := http_header_add hs "Content-Length".data (toString body.length).data
  http_header_add hs "Content-Type".data ctype

/-- gwlib `http_header_get_content_type` (modelled from the spec): take
the first `Content-Type` header, split off a `;charset=...` parameter and
lower-case the media type; default `application/octet-stream` with an
empty charset when the header is absent. -/
def http_header_get_content_type (hs : Headers) : CStr × CStr :=
  match hs.find? (fun h => nameEq h.1 "Content-Type".data) with
  | none => ("application/octet-stream".data, [])
  | some h =>
      let v := stripBlanks h.2
      match splitAtChar v ';' with
      | [] => (lowerStr v, [])
      | [t] => (lowerStr (stripBlanks t), [])
      | t :: rest =>
          let params := stripBlanks (List.intercalate [';'] rest)
          let charset :=
            match splitAtChar params '=' with
            | [] => ([] : CStr)
            | [_] => []
            | _ :: v1 :: _ =>
                let v1 := stripBlanks v1
                let v1 := if v1.head? == some '"' then v1.drop 1 else v1
                if v1.getLast? == some '"' then v1.take (v1.length - 1) else v1
          (lowerStr (stripBlanks t), charset)

/-- gwlib `http_header_combine` (modelled from the spec: "combine
(session_headers, request_headers)"): when the old list is non-empty,
remove from it every name that occurs in the new list, then append the
new list. -/
def http_header_combine (old new : Headers) : Headers :=
  let old :=
    if old.length > 0 then
      new.foldl (fun o h => (http_header_remove_all o h.1).1) old
    else old
  old ++ new

/-- gwlib `http_header_pack`.  Modelled from the spec: the spec says only
"finally pack/normalize", and no claim depends on the normal form, so the
normalization is modelled as the identity on header lists. -/
def http_header_pack (hs : Headers) : Headers := hs

/-! ## Content bundles, environment, and the converter registry -/

/-- `struct content` of wap-appl.c: {body, type, charset, url}. -/
structure Content where
  body : CStr
  type : CStr
  charset : CStr
  url : CStr
deriving DecidableEq, Repr

/-- The WSP session machine, reduced to the single field this layer
reads and writes (`sm->referer_url`). -/
structure WSPMachine where
  referer_url : Option CStr
deriving DecidableEq

/-- The environment of wap-appl.c: the `extern` policy flags
(`wsp_smart_errors`, `device_home`), the WSP session registry, the values
obtained from collaborators (official name, version, WML charsets,
current time formatted by `date_format_http`), the two black-box
compilers, and the error-deck constructors of wap-error.c (not among the
supplied sources; kept abstract, following the spec's description of
them as WML error decks linking back to a URL). -/
structure Env where
  wsp_smart_errors : Bool
  device_home : Option CStr
  find_session_machine_by_id : Int → Option WSPMachine
  date_format_http_now : CStr
  official_name : CStr
  version : CStr
  charsets : List CStr
  wml_compile : Content → Option CStr
  ws_compile_data : Content → Option CStr
  error_requesting_back : CStr → CStr → CStr
  error_requesting : CStr → CStr

/-- `get_referer_url`: `sm ? sm->referer_url : NULL`. -/
def get_referer_url (sm : Option WSPMachine) : Option CStr :=
  match sm with
  | some sm => sm.referer_url
  | none => none

/-- One entry of the static `converters[]` table. -/
structure Converter where
  type : CStr
  result_type : CStr
  convert : Content → Option CStr

/-- The `converters[]` table: WML and WMLScript, in that order.  The
compile functions (`convert_wml_to_wmlc`, resp.
`convert_wmlscript_to_wmlscriptc`) wrap the black-box compilers: they
return the compiled octet string or NULL on compiler failure. -/
def converters (env : Env) : List Converter :=
  [{ type := "text/vnd.wap.wml".data,
     result_type := "application/vnd.wap.wmlc".data,
     convert := env.wml_compile },
   { type := "text/vnd.wap.wmlscript".data,
     result_type := "application/vnd.wap.wmlscriptc".data,
     convert := env.ws_compile_data }]

/-- The loop of `convert_content`, with the `failed` flag threaded
through.  `octstr_str_compare(content->type, ...) == 0` is exact string
equality. -/
def convert_content_go : List Converter → Content → Bool → Int × Content
  | [], c, failed => (if failed then -1 else 0, c)
  | cv :: rest, c, failed =>
      if c.type = cv.type then
        match cv.convert c with
        | some new_body => (1, { c with body := new_body, type := cv.result_type })
        | none => convert_content_go rest c true
      else convert_content_go rest c failed

/-- `convert_content`: first matching converter wins; 1 = converted
(body and type replaced), 0 = no converter matched, -1 = every matching
converter failed. -/
def convert_content (convs : List Converter) (c : Content) : Int × Content :=
  convert_content_go convs c false

/-! ## HTTP status helpers (gwlib/http.h) -/

def HTTP_OK : Int := 200
def HTTP_NOT_IMPLEMENTED : Int := 501
def HTTP_BAD_GATEWAY : Int := 502
def HTTP_STATUS_SUCCESSFUL : Int := 2

/-- gwlib's `http_status_class(status)`, i.e. `status / 100` with C
truncating division.  Every status this layer classifies is
non-negative, where truncating and flooring division agree. -/
def http_status_class (status : Int) : Int := status / 100

/-! ## The URL-map table -/

/-- `struct wsp_http_map`.  The two flag bits `WSP_HTTP_MAP_INPREFIX`
and `WSP_HTTP_MAP_OUTPREFIX` are modelled as the booleans `instar` and
`outstar`. -/
structure WspHttpMapRule where
  in_pat : CStr
  in_len : Nat
  out_pat : CStr
  out_len : Nat
  instar : Bool
  outstar : Bool
deriving DecidableEq, Repr

/-- Does the string end in `'*'`? -/
def endsStar (s : CStr) : Bool := s.getLast? == some '*'

/-- `wsp_http_map_url_do_config`: append one rule.  An empty incoming
pattern is logged and rejected.  A trailing `*` on `src` is excluded
from the comparison length; without it the terminating NUL is included
(`in_len = strlen(src) + 1`).  A trailing `*` on `dst` is excluded from
`out_len`.  (The C code reads `dst[out_len-1]`, so its callers never
pass an empty `dst`; for an empty `dst` the model takes the no-star
branch.) -/
def wsp_http_map_url_do_config (rules : List WspHttpMapRule) (src dst : CStr) :
    List WspHttpMapRule :=
  if src = [] then rules
  else
    let instar := endsStar src
    let in_len := if instar then src.length - 1 else src.length + 1
    let outstar := endsStar dst
    let out_len := if outstar then dst.length - 1 else dst.length
    rules ++ [{ in_pat := src, in_len := in_len, out_pat := dst,
                out_len := out_len, instar := instar, outstar := outstar }]

/-- `strncasecmp(s, t, n) == 0` on NUL-terminated strings: compare up to
`n` octets case-insensitively; the comparison also stops at the
terminating NUL (equal only when both strings end there). -/
def cstrncaseeq : CStr → CStr → Nat → Bool
  | _, _, 0 => true
  | [], [], _ + 1 => true
  | [], _ :: _, _ + 1 => false
  | _ :: _, [], _ + 1 => false
  | a :: as, b :: bs, n + 1 => (lowerChar a == lowerChar b) && cstrncaseeq as bs n

/-- `wsp_http_map_find`: first rule whose `in` pattern matches the
leading `in_len` octets of `s` case-insensitively. -/
def wsp_http_map_find (rules : List WspHttpMapRule) (s : CStr) :
    Option WspHttpMapRule :=
  rules.find? (fun r => cstrncaseeq s r.in_pat r.in_len)

/-- `wsp_http_map_url`: rewrite the URL through the first matching rule;
`octstr_create_from_data(map->out, map->out_len)` takes the first
`out_len` octets of the stored replacement, and when both flag bits are
set the tail `oldstr + map->in_len` of the incoming URL is appended. -/
def wsp_http_map_url (rules : List WspHttpMapRule) (s : CStr) : CStr :=
  match wsp_http_map_find rules s with
  | none => s
  | some map =>
      let res := map.out_pat.take map.out_len
      if map.instar && map.outstar then res ++ s.drop map.in_len else res

/-- `to[i]` on the NUL-terminated representation of `to`: the characters
of the string, then NUL at (and past) index `strlen(to)`. -/
def cstrCharAt (s : CStr) (i : Nat) : Char := s.getD i (Char.ofNat 0)

/-- `wsp_http_map_url_config_device_home`: bind `DEVICE:home*` to the
given destination.  The C code tests `to[len] != '*'` with
`len = strlen(to)`: index `len` is the terminating NUL, so the test
succeeds for every `to` and a `'*'` is always appended. -/
def wsp_http_map_url_config_device_home (rules : List WspHttpMapRule)
    (dest : Option CStr) : List WspHttpMapRule :=
  match dest with
  | none => rules
  | some t =>
      let len := t.length
      let t := if cstrCharAt t len ≠ '*' then t ++ ['*'] else t
      wsp_http_map_url_do_config rules "DEVICE:home*".data t

/-! ## Events and replies -/

/-- `WAPAddrTuple`, reduced to the address strings this layer reads. -/
structure WAPAddrTuple where
  local_address : CStr
  remote_address : CStr
deriving DecidableEq, Repr

/-- The two method-invocation events consumed by `start_fetch`. -/
inductive InvokeEvent where
  | S_MethodInvoke_Ind (server_transaction_id session_id : Int)
      (request_uri method : CStr)
      (request_headers session_headers : Option Headers)
      (request_body : Option CStr) (addr_tuple : WAPAddrTuple)
      (client_SDU_size : Int)
  | S_Unit_MethodInvoke_Ind (transaction_id : Int) (request_uri method : CStr)
      (request_headers : Option Headers) (request_body : Option CStr)
      (addr_tuple : WAPAddrTuple)
deriving DecidableEq

/-- The method field of either invoke variant. -/
def InvokeEvent.method : InvokeEvent → CStr
  | .S_MethodInvoke_Ind _ _ _ m _ _ _ _ _ => m
  | .S_Unit_MethodInvoke_Ind _ _ m _ _ _ => m

/-- The request URI of either invoke variant. -/
def InvokeEvent.request_uri : InvokeEvent → CStr
  | .S_MethodInvoke_Ind _ _ u _ _ _ _ _ _ => u
  | .S_Unit_MethodInvoke_Ind _ u _ _ _ _ => u

/-- The reply events emitted back to the WSP layer
(`return_session_reply` / `return_unit_reply`). -/
inductive WSPReply where
  | S_MethodResult_Req (server_transaction_id : Int) (status : Int)
      (response_headers : Headers) (response_body : CStr) (session_id : Int)
  | S_Unit_MethodResult_Req (addr_tuple : WAPAddrTuple) (transaction_id : Int)
      (status : Int) (response_headers : Headers) (response_body : CStr)
deriving DecidableEq

def WSPReply.status : WSPReply → Int
  | .S_MethodResult_Req _ st _ _ _ => st
  | .S_Unit_MethodResult_Req _ _ st _ _ => st

def WSPReply.response_body : WSPReply → CStr
  | .S_MethodResult_Req _ _ _ b _ => b
  | .S_Unit_MethodResult_Req _ _ _ _ b => b

def WSPReply.response_headers : WSPReply → Headers
  | .S_MethodResult_Req _ _ hs _ _ => hs
  | .S_Unit_MethodResult_Req _ _ _ hs _ => hs

/-- What `return_reply` does: the emitted WSP reply event, plus the
referer-URL store into the session machine (`set_referer_url`), when one
happens. -/
structure ReturnReplyResult where
  reply : WSPReply
  referer_update : Option (Int × CStr)
deriving DecidableEq

/-! ## Gateway-injected request/response headers -/

/-- `add_kannel_version`: `X-WAP-Gateway: <GW_NAME>/<VERSION>`. -/
def add_kannel_version (env : Env) (hs : Headers) : Headers :=
  http_header_add hs "X-WAP-Gateway".data ("Kannel/".data ++ env.version)

/-- `add_charset_headers`: one `Accept-Charset` per WML-compiler charset
not already accepted; the additions are visible to later iterations. -/
def add_charset_headers (env : Env) (hs : Headers) : Headers :=
  env.charsets.foldl
    (fun hs cs =>
      if !http_charset_accepted hs cs then
        http_header_add hs "Accept-Charset".data cs
      else hs)
    hs

/-- `add_accept_headers`: advertise each converter's source type when its
result type is accepted and its source type is not. -/
def add_accept_headers (env : Env) (hs : Headers) : Headers :=
  (converters env).foldl
    (fun hs cv =>
      if http_type_accepted hs cv.result_type && !http_type_accepted hs cv.type then
        http_header_add hs "Accept".data cv.type
      else hs)
    hs

/-- `add_network_info`: `X_Network_Info` iff the remote address is
non-empty. -/
def add_network_info (hs : Headers) (addr_tuple : WAPAddrTuple) : Headers :=
  if addr_tuple.remote_address.length > 0 then
    http_header_add hs "X_Network_Info".data addr_tuple.remote_address
  else hs

/-- `add_session_id`: `X-WAP-Session-ID` iff the session id is not -1. -/
def add_session_id (hs : Headers) (session_id : Int) : Headers :=
  if session_id ≠ -1 then
    http_header_add hs "X-WAP-Session-ID".data (toString session_id).data
  else hs

/-- `add_client_sdu_size`: `X-WAP-Client-SDU-Size` iff the size is
positive. -/
def add_client_sdu_size (hs : Headers) (sdu_size : Int) : Headers :=
  if sdu_size > 0 then
    http_header_add hs "X-WAP-Client-SDU-Size".data (toString sdu_size).data
  else hs

/-- `add_via`: `Via: WAP/1.1 <host> (<GW_NAME>/<VERSION>)`. -/
def add_via (env : Env) (hs : Headers) : Headers :=
  http_header_add hs "Via".data
    ("WAP/1.1 ".data ++ env.official_name ++ " (Kannel/".data ++ env.version
      ++ ")".data)

/-- `add_x_wap_tod`: add the gateway time-of-day response header.
gwlib's `date_format_http` writes a fixed-width HTTP date into a
sufficiently large buffer and so never fails; it is modelled as the
total value `env.date_format_http_now`. -/
def add_x_wap_tod (env : Env) (hs : Headers) : Headers :=
  http_header_add hs "X-WAP.TOD".data env.date_format_http_now

/-- `add_referer_url`: `Referer` iff the URL is non-empty. -/
def add_referer_url (hs : Headers) (url : CStr) : Headers :=
  if url.length > 0 then http_header_add hs "Referer".data url else hs

/-! ## The reply dispatcher `return_reply` -/

/-- The smart-error body of the failure arm (lines 547-562): a WML error
deck linking back to the session's referer URL, else to the configured
`device_home`, else a plain error deck. -/
def smart_error_body (env : Env) (session_id : Int) (url : CStr) : CStr :=
  match get_referer_url (env.find_session_machine_by_id session_id) with
  | some referer_url => env.error_requesting_back url referer_url
  | none =>
      match env.device_home with
      | some home => env.error_requesting_back url home
      | none => env.error_requesting url

/-- The `status < 0` arm of `return_reply` (lines 535-580): smart-error
WML deck (status 200, converted through the registry) when
`wsp_smart_errors` is set, else a plain `502 Bad Gateway` with an empty
`text/plain` body.  Returns the new status, the content bundle, and the
(possibly still absent) header list. -/
def return_reply_failure_arm (env : Env) (session_id : Int) (url : CStr)
    (headers : Option Headers) : Int × Content × Option Headers :=
  if env.wsp_smart_errors then
    let c : Content := { body := smart_error_body env session_id url,
                         type := "text/vnd.wap.wml".data, charset := [],
                         url := url }
    let hs := match headers with | none => [] | some hs => hs
    let conv := convert_content (converters env) c
    let hs :=
      if conv.1 = 1 then http_header_mark_transformation hs conv.2.body conv.2.type
      else hs
    (HTTP_OK, conv.2, some hs)
  else
    (HTTP_BAD_GATEWAY,
     { body := [], type := "text/plain".data, charset := [], url := url },
     headers)

/-- The `status >= 0` arm of `return_reply` (lines 582-619): extract the
content type, convert, and on conversion mark the transformation and
store the URL as the session's referer.  The HTTP layer always supplies
a header list and a body on this arm; a NULL body would only be replaced
by the empty string at line 628, which the model folds into the bundle
construction.  (Cookie extraction is compiled out.) -/
def return_reply_success_arm (env : Env) (status : Int)
    (content_body : Option CStr) (headers : Option Headers)
    (session_id : Int) (url : CStr) :
    Int × Content × Option Headers × Option (Int × CStr) :=
  let hs := headers.getD []
  let tc := http_header_get_content_type hs
  let c : Content := { body := content_body.getD [], type := tc.1,
                       charset := tc.2, url := url }
  let conv := convert_content (converters env) c
  if conv.1 = 1 then
    let hs := http_header_mark_transformation hs conv.2.body conv.2.type
    let referer_update :=
      if session_id ≠ -1 then
        match env.find_session_machine_by_id session_id with
        | some _ => some (session_id, url)
        | none => none
      else none
    (status, conv.2, some hs, referer_update)
  else (status, conv.2, some hs, none)

/-- The accept-filter fallback (lines 638-647): on a non-2xx status whose
content type the client did not advertise, delete the body and switch the
type to `text/plain`. -/
def accept_filter (status : Int) (request_headers : Headers) (c : Content)
    (hs : Headers) : Content × Headers :=
  if http_status_class status ≠ HTTP_STATUS_SUCCESSFUL ∧
     http_type_accepted request_headers c.type = false then
    let c := { c with body := [], type := "text/plain".data }
    (c, http_header_mark_transformation hs c.body c.type)
  else (c, hs)

/-- The SDU-size enforcement (lines 649-667): when the body exceeds a
positive client SDU size, override a 2xx status to `502 Bad Gateway`
(a non-2xx status is kept) and suppress the body. -/
def sdu_enforce (sdu_size status : Int) (c : Content) (hs : Headers) :
    Int × Content × Headers :=
  if (c.body.length : Int) > sdu_size ∧ sdu_size > 0 then
    let status :=
      if http_status_class status = HTTP_STATUS_SUCCESSFUL then HTTP_BAD_GATEWAY
      else status
    let c := { c with body := [] }
    (status, c, http_header_mark_transformation hs c.body c.type)
  else (status, c, hs)

/-- The common finalization of `return_reply` (lines 621-676): materialize
the header list, strip hop-by-hop headers, remove `X-WAP.TOD` and re-add
it iff the request carried one, apply the accept filter and the SDU
enforcement, and emit the WSP reply event for the owning invoke event. -/
def return_reply_finalize (env : Env) (status : Int) (c : Content)
    (headers : Option Headers) (sdu_size : Int) (orig_event : InvokeEvent)
    (session_id : Int) (x_wap_tod : Nat) (request_headers : Headers) :
    WSPReply :=
  let hs := headers.getD []
  let hs := http_remove_hop_headers hs
  let hs := (http_header_remove_all hs "X-WAP.TOD".data).1
  let hs := if x_wap_tod ≠ 0 then add_x_wap_tod env hs else hs
  let cf := accept_filter status request_headers c hs
  let sf := sdu_enforce sdu_size status cf.1 cf.2
  match orig_event with
  | .S_MethodInvoke_Ind server_transaction_id _ _ _ _ _ _ _ _ =>
      .S_MethodResult_Req server_transaction_id sf.1 sf.2.2 sf.2.1.body
        session_id
  | .S_Unit_MethodInvoke_Ind transaction_id _ _ _ _ addr_tuple =>
      .S_Unit_MethodResult_Req addr_tuple transaction_id sf.1 sf.2.2
        sf.2.1.body

/-- `return_reply` (lines 523-683). -/
def return_reply (env : Env) (status : Int) (content_body : Option CStr)
    (headers : Option Headers) (sdu_size : Int) (orig_event : InvokeEvent)
    (session_id : Int) (url : CStr) (x_wap_tod : Nat)
    (request_headers : Headers) : ReturnReplyResult :=
  if status < 0 then
    let a := return_reply_failure_arm env session_id url headers
    { reply := return_reply_finalize env a.1 a.2.1 a.2.2 sdu_size orig_event
                 session_id x_wap_tod request_headers,
      referer_update := none }
  else
    let a :=
      return_reply_success_arm env status content_body headers session_id url
    { reply := return_reply_finalize env a.1 a.2.1 a.2.2.1 sdu_size orig_event
                 session_id x_wap_tod request_headers,
      referer_update := a.2.2.2 }

/-! ## The request assembler `start_fetch` -/

/-- The per-request context handed to the HTTP caller
(`struct request_data`). -/
structure RequestData where
  client_SDU_size : Int
  event : InvokeEvent
  session_id : Int
  url : CStr
  x_wap_tod : Nat
  request_headers : Headers
deriving DecidableEq

/-- Header assembly of `start_fetch` (lines 773-804): combine session and
request headers, strip hop-by-hop headers, record and remove
`X-WAP.TOD`, then add the gateway headers in source order and pack.
Returns the outbound header list and the `X-WAP.TOD` flag (the count
returned by `http_header_remove_all`). -/
def start_fetch_headers (env : Env)
    (session_headers request_headers : Option Headers)
    (addr_tuple : WAPAddrTuple) (session_id client_SDU_size : Int) :
    Headers × Nat :=
  let actual : Headers := []
  let actual :=
    match session_headers with
    | some sh => http_header_combine actual sh
    | none => actual
  let actual :=
    match request_headers with
    | some rh => http_header_combine actual rh
    | none => actual
  let actual := http_remove_hop_headers actual
  let removed := http_header_remove_all actual "X-WAP.TOD".data
  let actual := removed.1
  let x_wap_tod := removed.2
  let actual := add_accept_headers env actual
  let actual := add_charset_headers env actual
  let actual := add_network_info actual addr_tuple
  let actual := add_client_sdu_size actual client_SDU_size
  let actual := add_via env actual
  let actual :=
    if session_id ≠ -1 then
      match get_referer_url (env.find_session_machine_by_id session_id) with
      | some referer_url => add_referer_url actual referer_url
      | none => actual
    else actual
  let actual := add_kannel_version env actual
  let actual := add_session_id actual session_id
  (http_header_pack actual, x_wap_tod)

/-- The dispatch decision of `start_fetch` (lines 806-847): either a
synthesized reply delivered through `return_reply` (with the argument
values recorded), or a request submitted to the HTTP caller. -/
inductive FetchAction where
  | deliver (status : Int) (content_body : CStr) (resp_headers : Headers)
      (client_SDU_size session_id : Int) (url : CStr) (x_wap_tod : Nat)
      (actual_headers : Headers)
  | httpRequest (method url : CStr) (headers : Headers) (body : Option CStr)
      (ctx : RequestData)
deriving DecidableEq

def FetchAction.isHttpRequest : FetchAction → Bool
  | .httpRequest _ _ _ _ _ => true
  | .deliver _ _ _ _ _ _ _ _ => false

def FetchAction.deliverStatus? : FetchAction → Option Int
  | .deliver st _ _ _ _ _ _ _ => some st
  | .httpRequest _ _ _ _ _ => none

def FetchAction.deliverBody? : FetchAction → Option CStr
  | .deliver _ b _ _ _ _ _ _ => some b
  | .httpRequest _ _ _ _ _ => none

def FetchAction.deliverRespHeaders? : FetchAction → Option Headers
  | .deliver _ _ hs _ _ _ _ _ => some hs
  | .httpRequest _ _ _ _ _ => none

/-- The fixed health deck returned for the URL `kannel:alive`
(`HEALTH_DECK`, lines 718-722). -/
def HEALTH_DECK : CStr :=
  ("<?xml version=\"1.0\"?>"
    ++ "<!DOCTYPE wml PUBLIC \"-//WAPFORUM//DTD 1.1//EN\" "
    ++ "\"http://www.wapforum.org/DTD/wml_1.1.xml\">"
    ++ "<wml><card id=\"health\"><p>Ok</p></card></wml>").data

/-- `start_fetch` up to its dispatch (lines 724-847): extract the event
fields (the unit variant has no session, session id -1 and no SDU
limit), rewrite the URL through the map table, assemble the outbound
headers, then dispatch on method and URL.  `octstr_str_compare` and
`octstr_compare` are exact string comparisons. -/
def start_fetch_action (env : Env) (rules : List WspHttpMapRule)
    (event : InvokeEvent) : FetchAction :=
  let (session_headers, request_headers, url0, addr_tuple, session_id,
       client_SDU_size, request_body, method) :=
    match event with
    | .S_MethodInvoke_Ind _ session_id request_uri method request_headers
        session_headers request_body addr_tuple client_SDU_size =>
        (session_headers, request_headers, request_uri, addr_tuple,
         session_id, client_SDU_size, request_body, method)
    | .S_Unit_MethodInvoke_Ind _ request_uri method request_headers
        request_body addr_tuple =>
        (none, request_headers, request_uri, addr_tuple, (-1 : Int),
         (0 : Int), request_body, method)
  let url := wsp_http_map_url rules url0
  let built :=
    start_fetch_headers env session_headers request_headers addr_tuple
      session_id client_SDU_size
  let actual_headers := built.1
  let x_wap_tod := built.2
  if method = "GET".data ∧ url = "kannel:alive".data then
    .deliver HTTP_OK HEALTH_DECK
      (http_header_add [] "Content-Type".data "text/vnd.wap.wml".data)
      client_SDU_size session_id url x_wap_tod actual_headers
  else if method = "GET".data ∨ method = "POST".data ∨ method = "HEAD".data then
    let request_body :=
      if request_body ≠ none ∧ (method = "GET".data ∨ method = "HEAD".data) then
        none
      else request_body
    .httpRequest method url actual_headers request_body
      { client_SDU_size := client_SDU_size, event := event,
        session_id := session_id, url := url, x_wap_tod := x_wap_tod,
        request_headers := actual_headers }
  else
    .deliver HTTP_NOT_IMPLEMENTED [] [] client_SDU_size session_id url
      x_wap_tod actual_headers

/-- What one `start_fetch` call does: either the reply is synthesized and
emitted through `return_reply`, or the request is handed to the HTTP
caller with its correlation context. -/
inductive FetchOutcome where
  | emitted (result : ReturnReplyResult)
  | submitted (method url : CStr) (headers : Headers) (body : Option CStr)
      (ctx : RequestData)
deriving DecidableEq

/-- `start_fetch`, composed with `return_reply` on the synthesized-reply
arms, exactly as the source calls it. -/
def start_fetch (env : Env) (rules : List WspHttpMapRule)
    (event : InvokeEvent) : FetchOutcome :=
  match start_fetch_action env rules event with
  | .deliver status content_body resp_headers client_SDU_size session_id url
      x_wap_tod actual_headers =>
      .emitted (return_reply env status (some content_body)
        (some resp_headers) client_SDU_size event session_id url x_wap_tod
        actual_headers)
  | .httpRequest method url headers body ctx =>
      .submitted method url headers body ctx

/-! ## Push OTA header decoding -/

/-- `split_header_list` (lines 1255-1262): partition the headers into
those named `name` (gwlib `http_header_find_all`) and the rest
(`http_header_remove_all`).  When the input list is NULL the function
returns at once, leaving the caller's extracted list untouched
(modelled as `none`). -/
def split_header_list (headers : Option Headers) (name : CStr) :
    Option Headers × Option Headers :=
  match headers with
  | none => (none, none)
  | some hs =>
      ((some (http_header_remove_all hs name).1),
       some (hs.filter (fun h => nameEq h.1 name)))

/-- Outcome of the translation loop of `check_application_headers`. -/
inductive LoopOutcome where
  | returns (application_headers : Headers)
  | crashed
  | outOfFuel
deriving DecidableEq

/-- The translation loop of `check_application_headers`
(lines 1164-1185), run on a fuel budget: while the extracted list is
non-empty, read header `i` (`http_header_get`, a non-mutating read whose
underlying `list_get` asserts `i < list_len` and aborts out of range —
modelled as `crashed`), translate the value, append the translated
header, and increment `i`.  The loop body never shrinks `inh`, so the
guard `list_len(inh) > 0` is invariant.

`translate` stands for
`wsp_application_id_to_cstr((long) octstr_get_cstr(coded_octstr))`; the
C expression applies the WINA registry lookup to the *address* returned
by `octstr_get_cstr`, not to the numeric value encoded in the octet
string (the spec flags this as a bug), so the lookup is kept abstract.
`octstr_get_cstr` never returns NULL, so the `coded_value != NULL`
guards always hold. -/
def check_application_headers_loop (translate : CStr → Option CStr)
    (inh : Headers) : Nat → Nat → Headers → LoopOutcome
  | 0, _, _ => .outOfFuel
  | fuel + 1, i, application_headers =>
      if inh.length > 0 then
        match inh[i]? with
        | none => .crashed
        | some h =>
            let application_headers :=
              match translate h.2 with
              | some appid_value =>
                  http_header_add application_headers
                    "Accept-Application".data appid_value
              | none => application_headers
            check_application_headers_loop translate inh fuel (i + 1)
              application_headers
      else .returns application_headers

/-- Outcome of `check_application_headers`: the function either returns
(with the remaining input headers and the encoded application headers),
or its loop aborts on the out-of-range `list_get`, or the fuel budget is
exhausted. -/
inductive AppHdrOutcome where
  | returns (headers : Option Headers) (application_headers : Headers)
  | crashed
  | outOfFuel
deriving DecidableEq

def AppHdrOutcome.isReturns : AppHdrOutcome → Bool
  | .returns _ _ => true
  | _ => false

/-- `check_application_headers` (lines 1145-1193): split off the
`Accept-Application` headers; when the input list is NULL or none are
present, add the default `Accept-Application: wml ua`; otherwise run the
translation loop starting at `i = 0`. -/
def check_application_headers (translate : CStr → Option CStr) (fuel : Nat)
    (headers : Option Headers) (application_headers : Headers) :
    AppHdrOutcome :=
  let (headers, inh) := split_header_list headers "Accept-Application".data
  match headers with
  | none =>
      .returns none
        (http_header_add application_headers "Accept-Application".data
          "wml ua".data)
  | some hs =>
      let inh := inh.getD []
      if inh.length = 0 then
        .returns (some hs)
          (http_header_add application_headers "Accept-Application".data
            "wml ua".data)
      else
        match check_application_headers_loop translate inh fuel 0
            application_headers with
        | .returns app => .returns (some hs) app
        | .crashed => .crashed
        | .outOfFuel => .outOfFuel

/-! ## Specification-side definitions

These definitions follow the words of the specification and of the
claims, to be compared with the definitions translated from the source.
-/

/-- Follows the spec's words for the converter registry (claim C7): an
unregistered type returns 0 with the content untouched; a registered
type either converts (receiving the compiled body and the result type,
charset and url untouched) or fails with -1 and the content untouched. -/
def convert_content_spec (env : Env) (c : Content) : Int × Content :=
  if c.type = "text/vnd.wap.wml".data then
    match env.wml_compile c with
    | some compiled =>
        (1, { c with body := compiled,
                     type := "application/vnd.wap.wmlc".data })
    | none => (-1, c)
  else if c.type = "text/vnd.wap.wmlscript".data then
    match env.ws_compile_data c with
    | some compiled =>
        (1, { c with body := compiled,
                     type := "application/vnd.wap.wmlscriptc".data })
    | none => (-1, c)
  else (0, c)

/-- Follows the spec's words for URL-map matching (claim C4): a pattern
with a trailing `*` matches case-insensitively on its leading octets
(which the URL must actually have); a pattern without one requires
full-string case-insensitive equality (the terminating NUL included). -/
def url_map_matches_spec (src u : CStr) : Bool :=
  if endsStar src then
    let n := src.length - 1
    decide (n ≤ u.length) && (lowerStr (u.take n) == lowerStr (src.take n))
  else lowerStr u == lowerStr src

/-- Follows the spec's words for the rewrite (claim C4): scan the
configured (src, dst) pairs in insertion order, skipping the rejected
empty sources; on the first match the result is the out pattern (dst
minus its trailing `*`, if any), with the tail of the URL after the
matched prefix appended (original case preserved) exactly when both src
and dst carry the `*` marker; otherwise the URL is unchanged. -/
def url_map_rewrite_spec (pairs : List (CStr × CStr)) (u : CStr) : CStr :=
  match pairs.find? (fun p => !p.1.isEmpty && url_map_matches_spec p.1 u) with
  | none => u
  | some p =>
      let stripped := if endsStar p.2 then p.2.take (p.2.length - 1) else p.2
      if endsStar p.1 && endsStar p.2 then
        stripped ++ u.drop (p.1.length - 1)
      else stripped

/-- The rule list built from a configuration: one
`wsp_http_map_url_do_config` call per (src, dst) pair, in order. -/
def url_map_build (pairs : List (CStr × CStr)) : List WspHttpMapRule :=
  pairs.foldl (fun rules p => wsp_http_map_url_do_config rules p.1 p.2) []

def LoopOutcome.isReturns : LoopOutcome → Bool
  | .returns _ => true
  | _ => false

/-- A concrete environment used to instantiate the theorems on concrete
inputs: smart errors off, no device home, no sessions, no charsets, both
compilers failing. -/
def testEnv : Env :=
  { wsp_smart_errors := false, device_home := none,
    find_session_machine_by_id := fun _ => none,
    date_format_http_now := "Mon, 01 Jan 2024 00:00:00 GMT".data,
    official_name := "gw.example".data, version := "1.4".data,
    charsets := [],
    wml_compile := fun _ => none, ws_compile_data := fun _ => none,
    error_requesting_back := fun _ _ => "BACKDECK".data,
    error_requesting := fun _ => "PLAINDECK".data }

/-- `testEnv` with the smart-error policy enabled. -/
def testEnvSmart : Env := { testEnv with wsp_smart_errors := true }

/-- The single rule installed by `wsp_http_map_url_do_config` for a
non-empty source pattern. -/
def url_map_rule_of (src dst : CStr) : WspHttpMapRule :=
  { in_pat := src,
    in_len := if endsStar src then src.length - 1 else src.length + 1,
    out_pat := dst,
    out_len := if endsStar dst then dst.length - 1 else dst.length,
    instar := endsStar src,
    outstar := endsStar dst }

/-- A unit method-invoke event for the reserved URL `kannel:alive`. -/
def testAliveEvent : InvokeEvent :=
  .S_Unit_MethodInvoke_Ind 9 "kannel:alive".data "GET".data none none
    { local_address := [], remote_address := [] }

/-- A unit method-invoke event with the unsupported method `PUT`. -/
def testPutEvent : InvokeEvent :=
  .S_Unit_MethodInvoke_Ind 9 "http://x/y".data "PUT".data none none
    { local_address := [], remote_address := [] }

/-! ## Helper lemmas -/

/-- The translation loop never reaches its exit when the extracted
`Accept-Application` list is non-empty: the loop body never shrinks
`inh`, so the guard `list_len(inh) > 0` holds on every iteration and the
loop either exhausts its fuel or aborts in the out-of-range
`list_get`. -/
theorem check_application_headers_loop_no_return
    (translate : CStr → Option CStr) (inh : Headers)
    (h : 0 < inh.length) :
    ∀ fuel i app,
      (check_application_headers_loop translate inh fuel i app).isReturns
        = false := by
  intro fuel
  induction fuel with
  | zero => intro i app; rfl
  | succ n ih =>
      intro i app
      unfold check_application_headers_loop
      rw [if_pos h]
      cases hg : inh[i]? with
      | none => rfl
      | some hd => exact ih (i + 1) _

/-- `check_application_headers` never returns on an input list that
carries an `Accept-Application` header. -/
theorem check_application_headers_no_return
    (translate : CStr → Option CStr) (hs app : Headers)
    (h : containsName hs "Accept-Application".data = true) :
    ∀ fuel,
      (check_application_headers translate fuel (some hs) app).isReturns
        = false := by
  intro fuel
  have hpos :
      0 < (hs.filter
            (fun h => nameEq h.1 "Accept-Application".data)).length := by
    rcases List.any_eq_true.mp h with ⟨x, hx, hpx⟩
    exact List.length_pos.mpr
      (List.ne_nil_of_mem (List.mem_filter.mpr ⟨hx, hpx⟩))
  unfold check_application_headers split_header_list
  simp only [Option.getD_some]
  rw [if_neg (Nat.pos_iff_ne_zero.mp hpos)]
  cases hloop : check_application_headers_loop translate
      (hs.filter (fun h => nameEq h.1 "Accept-Application".data)) fuel 0 app with
  | returns app' =>
      have := check_application_headers_loop_no_return translate _ hpos fuel 0 app
      rw [hloop] at this
      exact absurd this (by simp [LoopOutcome.isReturns])
  | crashed => rfl
  | outOfFuel => rfl

/-! ## Claim theorems -/

/-- C10: the claim asserts that `check_application_headers` terminates
and that its translation loop, guarded by the length of the extracted
`Accept-Application` sublist, decreases a well-founded measure and
returns after processing each extracted header once.  The code refutes
this: the loop body never removes anything from the extracted list
(`http_header_get` is a read), so the guard `list_len(inh) > 0` is
invariant and the function never returns normally on any input that
carries an `Accept-Application` header, for any fuel budget. -/
theorem claim_C10_check_application_headers_nontermination
    (translate : CStr → Option CStr) (hs app : Headers)
    (h : containsName hs "Accept-Application".data = true) :
    ∀ fuel,
      (check_application_headers translate fuel (some hs) app).isReturns
        = false :=
  check_application_headers_no_return translate hs app h

theorem claim_C10_witness :
    containsName [("Accept-Application".data, "1".data)]
        "Accept-Application".data = true
    ∧ (check_application_headers (fun _ => none) 3
        (some [("Accept-Application".data, "1".data)]) []).isReturns
        = false :=
  ⟨by decide,
   claim_C10_check_application_headers_nontermination (fun _ => none)
     [("Accept-Application".data, "1".data)] [] (by decide) 3⟩

/-- C6: the claim describes `check_application_headers` as translating,
for each `Accept-Application` header present, the numeric application id
encoded in the header's value.  The code instead (a) applies the WINA
lookup to the pointer returned by `octstr_get_cstr` (a memory address,
not the encoded id), and (b) never returns on such an input at all: with
a single `Accept-Application: 1` push header the call loops until the
out-of-range `list_get` aborts, for every translation oracle and every
fuel budget. -/
theorem claim_C6_accept_application_translation_never_returns
    (translate : CStr → Option CStr) (fuel : Nat) :
    (check_application_headers translate fuel
        (some [("Accept-Application".data, "1".data)]) []).isReturns
      = false :=
  check_application_headers_no_return translate
    [("Accept-Application".data, "1".data)] [] (by decide) fuel

/-- C5: the claim states that `url_map_config_device_home(dst)` appends
a trailing `'*'` to `dst` iff `dst` does not already end in one, so that
a `dst` already ending in `'*'` is used as-is (out pattern = dst minus
its one trailing `'*'`).  The code tests `to[len] != '*'` with
`len = strlen(to)`: index `len` is the terminating NUL, so the test is
always true and a `'*'` is appended even to `"http://x/*"`.  The
installed rule's effective out pattern is then `"http://x/*"` (the
embedded star survives) instead of `"http://x/"`, and rewriting
`"DEVICE:home/x"` yields `"http://x/*/x"` instead of `"http://x//x"`. -/
theorem claim_C5_device_home_always_appends_star :
    (wsp_http_map_url_config_device_home [] (some "http://x/*".data)).map
        (fun r => (r.out_pat.take r.out_len, r.instar, r.outstar))
      = [("http://x/*".data, true, true)]
    ∧ wsp_http_map_url
        (wsp_http_map_url_config_device_home [] (some "http://x/*".data))
        "DEVICE:home/x".data = "http://x/*/x".data
    ∧ ("http://x/*".data : CStr) ≠ "http://x/".data
    ∧ ("http://x/*/x".data : CStr) ≠ "http://x//x".data := by
  refine ⟨by decide, by decide, by decide, by decide⟩

/-- C7: `convert_content` refines the spec's description: an
unregistered type returns 0 leaving every field of the content bundle
unchanged; a registered type whose compiler succeeds returns 1 with the
body and type replaced (charset and url unchanged); a registered type
whose compiler fails returns -1 with the bundle unchanged. -/
theorem claim_C7_convert_content_refines_spec (env : Env) (c : Content) :
    convert_content (converters env) c = convert_content_spec env c := by
  have hne : ("text/vnd.wap.wml".data : CStr) ≠ "text/vnd.wap.wmlscript".data := by
    decide
  by_cases h1 : c.type = "text/vnd.wap.wml".data
  · cases henv : env.wml_compile c with
    | some compiled =>
        simp [convert_content, convert_content_go, converters,
              convert_content_spec, h1, henv]
    | none =>
        simp [convert_content, convert_content_go, converters,
              convert_content_spec, h1, henv, hne]
  · by_cases h2 : c.type = "text/vnd.wap.wmlscript".data
    · cases henv : env.ws_compile_data c with
      | some compiled =>
          simp [convert_content, convert_content_go, converters,
                convert_content_spec, h1, h2, henv]
      | none =>
          simp [convert_content, convert_content_go, converters,
                convert_content_spec, h1, h2, henv]
    · simp [convert_content, convert_content_go, converters,
            convert_content_spec, h1, h2]

/-- The accept filter never introduces a body: an empty body stays
empty. -/
theorem accept_filter_body_empty (status : Int) (reqh : Headers)
    (c : Content) (hs : Headers) (hc : c.body = []) :
    ((accept_filter status reqh c hs).1).body = [] := by
  unfold accept_filter
  split <;> simp [hc]

/-- The SDU enforcement is a no-op on an empty body. -/
theorem sdu_enforce_of_empty_body (sdu_size status : Int) (c : Content)
    (hs : Headers) (hc : c.body = []) :
    sdu_enforce sdu_size status c hs = (status, c, hs) := by
  unfold sdu_enforce
  rw [if_neg]
  rw [hc]
  simp
  omega

/-- When the content body entering the common finalization is empty, the
accept filter and the SDU enforcement leave status and (empty) body
alone, and the reply event carries the owning event's identifiers. -/
theorem return_reply_finalize_empty_body (env : Env) (status : Int)
    (c : Content) (headers : Option Headers) (sdu_size : Int)
    (event : InvokeEvent) (session_id : Int) (xwt : Nat) (reqh : Headers)
    (hc : c.body = []) :
    ∃ hs',
      return_reply_finalize env status c headers sdu_size event session_id
          xwt reqh
        = match event with
          | .S_MethodInvoke_Ind stx _ _ _ _ _ _ _ _ =>
              .S_MethodResult_Req stx status hs' [] session_id
          | .S_Unit_MethodInvoke_Ind tid _ _ _ _ addr =>
              .S_Unit_MethodResult_Req addr tid status hs' [] := by
  simp only [return_reply_finalize]
  rw [sdu_enforce_of_empty_body _ _ _ _
    (accept_filter_body_empty status reqh c _ hc)]
  cases event <;>
    exact ⟨_, by rw [accept_filter_body_empty status reqh c _ hc]⟩

/-- A dispatch decision that is not an HTTP submission is delivered
through `return_reply` and emitted. -/
theorem start_fetch_emitted_of_not_http (env : Env)
    (rules : List WspHttpMapRule) (event : InvokeEvent)
    (h : (start_fetch_action env rules event).isHttpRequest = false) :
    ∃ r, start_fetch env rules event = FetchOutcome.emitted r := by
  unfold start_fetch
  cases ha : start_fetch_action env rules event with
  | deliver st b rh sdu sid url xwt ah => exact ⟨_, rfl⟩
  | httpRequest m u hs b ctx =>
      rw [ha] at h
      exact absurd h (by simp [FetchAction.isHttpRequest])

/-- C1: a dispatched MethodInvoke whose method is GET and whose URL maps
to exactly `kannel:alive` is answered without contacting the HTTP
caller: `start_fetch` delivers through `return_reply` a reply with
status 200, a single `Content-Type: text/vnd.wap.wml` header and the
fixed health deck as body. -/
theorem claim_C1_health_deck_fast_path (env : Env)
    (rules : List WspHttpMapRule) (event : InvokeEvent)
    (hm : event.method = "GET".data)
    (hu : wsp_http_map_url rules event.request_uri = "kannel:alive".data) :
    (start_fetch_action env rules event).isHttpRequest = false
    ∧ (start_fetch_action env rules event).deliverStatus? = some 200
    ∧ (start_fetch_action env rules event).deliverBody? = some HEALTH_DECK
    ∧ (start_fetch_action env rules event).deliverRespHeaders?
        = some [("Content-Type".data, "text/vnd.wap.wml".data)]
    ∧ ∃ r, start_fetch env rules event = FetchOutcome.emitted r := by
  have hfacts : (start_fetch_action env rules event).isHttpRequest = false
      ∧ (start_fetch_action env rules event).deliverStatus? = some 200
      ∧ (start_fetch_action env rules event).deliverBody? = some HEALTH_DECK
      ∧ (start_fetch_action env rules event).deliverRespHeaders?
          = some [("Content-Type".data, "text/vnd.wap.wml".data)] := by
    cases event with
    | S_MethodInvoke_Ind stx sid uri m rh sh rb addr sdu =>
        simp only [InvokeEvent.method] at hm
        simp only [InvokeEvent.request_uri] at hu
        subst hm
        simp [start_fetch_action, hu, FetchAction.isHttpRequest,
              FetchAction.deliverStatus?, FetchAction.deliverBody?,
              FetchAction.deliverRespHeaders?, http_header_add, HTTP_OK]
    | S_Unit_MethodInvoke_Ind tid uri m rh rb addr =>
        simp only [InvokeEvent.method] at hm
        simp only [InvokeEvent.request_uri] at hu
        subst hm
        simp [start_fetch_action, hu, FetchAction.isHttpRequest,
              FetchAction.deliverStatus?, FetchAction.deliverBody?,
              FetchAction.deliverRespHeaders?, http_header_add, HTTP_OK]
  exact ⟨hfacts.1, hfacts.2.1, hfacts.2.2.1, hfacts.2.2.2,
         start_fetch_emitted_of_not_http env rules event hfacts.1⟩

theorem claim_C1_witness :
    testAliveEvent.method = "GET".data
    ∧ wsp_http_map_url [] testAliveEvent.request_uri = "kannel:alive".data
    ∧ ((start_fetch_action testEnv [] testAliveEvent).isHttpRequest = false
       ∧ (start_fetch_action testEnv [] testAliveEvent).deliverStatus?
           = some 200
       ∧ (start_fetch_action testEnv [] testAliveEvent).deliverBody?
           = some HEALTH_DECK
       ∧ (start_fetch_action testEnv [] testAliveEvent).deliverRespHeaders?
           = some [("Content-Type".data, "text/vnd.wap.wml".data)]
       ∧ ∃ r, start_fetch testEnv [] testAliveEvent
           = FetchOutcome.emitted r) :=
  ⟨by decide, by decide,
   claim_C1_health_deck_fast_path testEnv [] testAliveEvent (by decide)
     (by decide)⟩

/-- `return_reply` on the synthesized 501 reply (empty body, empty
response headers) of a unit invoke event emits a single
`S_Unit_MethodResult_Req` with status 501, an empty body, and the
event's address tuple and transaction id. -/
theorem return_reply_501_unit (env : Env) (sdu_size : Int) (tid : Int)
    (uri m : CStr) (rh : Option Headers) (rb : Option CStr)
    (addr : WAPAddrTuple) (session_id : Int) (url : CStr) (xwt : Nat)
    (reqh : Headers) :
    ∃ hs,
      return_reply env HTTP_NOT_IMPLEMENTED (some []) (some []) sdu_size
          (.S_Unit_MethodInvoke_Ind tid uri m rh rb addr) session_id url xwt
          reqh
        = { reply := WSPReply.S_Unit_MethodResult_Req addr tid
              HTTP_NOT_IMPLEMENTED hs [],
            referer_update := none } := by
  have harm : return_reply_success_arm env HTTP_NOT_IMPLEMENTED (some [])
      (some []) session_id url
      = (HTTP_NOT_IMPLEMENTED,
         { body := [], type := "application/octet-stream".data, charset := [],
           url := url },
         some [], none) := by
    simp [return_reply_success_arm, http_header_get_content_type,
          convert_content, convert_content_go, converters]
  obtain ⟨hs', hfin⟩ := return_reply_finalize_empty_body env
    HTTP_NOT_IMPLEMENTED
    { body := [], type := "application/octet-stream".data, charset := [],
      url := url }
    (some []) sdu_size (.S_Unit_MethodInvoke_Ind tid uri m rh rb addr)
    session_id xwt reqh rfl
  refine ⟨hs', ?_⟩
  have hneg : ¬ (HTTP_NOT_IMPLEMENTED < (0 : Int)) := by
    norm_num [HTTP_NOT_IMPLEMENTED]
  simp only [return_reply, if_neg hneg, harm]
  rw [hfin]

/-- C8: a MethodInvoke whose method is none of GET, POST, HEAD (and thus
also misses the `kannel:alive` fast path, which requires GET) submits no
HTTP request: `start_fetch` delivers through `return_reply` a 501 reply
with an empty body and empty response headers; for the unit variant the
emission is a single `S_Unit_MethodResult_Req` with status 501, empty
body, and the event's address tuple and transaction id preserved. -/
theorem claim_C8_unsupported_method (env : Env)
    (rules : List WspHttpMapRule) (event : InvokeEvent)
    (h1 : event.method ≠ "GET".data) (h2 : event.method ≠ "POST".data)
    (h3 : event.method ≠ "HEAD".data) :
    ((start_fetch_action env rules event).isHttpRequest = false
     ∧ (start_fetch_action env rules event).deliverStatus? = some 501
     ∧ (start_fetch_action env rules event).deliverBody? = some []
     ∧ (start_fetch_action env rules event).deliverRespHeaders? = some [])
    ∧ (∀ tid uri m rh rb addr,
        event = InvokeEvent.S_Unit_MethodInvoke_Ind tid uri m rh rb addr →
        ∃ hs, start_fetch env rules event
          = FetchOutcome.emitted
              { reply := WSPReply.S_Unit_MethodResult_Req addr tid 501 hs [],
                referer_update := none }) := by
  constructor
  · cases event with
    | S_MethodInvoke_Ind stx sid uri m rh sh rb addr sdu =>
        simp only [InvokeEvent.method] at h1 h2 h3
        simp [start_fetch_action, h1, h2, h3, FetchAction.isHttpRequest,
              FetchAction.deliverStatus?, FetchAction.deliverBody?,
              FetchAction.deliverRespHeaders?, HTTP_NOT_IMPLEMENTED]
    | S_Unit_MethodInvoke_Ind tid uri m rh rb addr =>
        simp only [InvokeEvent.method] at h1 h2 h3
        simp [start_fetch_action, h1, h2, h3, FetchAction.isHttpRequest,
              FetchAction.deliverStatus?, FetchAction.deliverBody?,
              FetchAction.deliverRespHeaders?, HTTP_NOT_IMPLEMENTED]
  · intro tid uri m rh rb addr heq
    subst heq
    simp only [InvokeEvent.method] at h1 h2 h3
    obtain ⟨hs, hrr⟩ := return_reply_501_unit env 0 tid uri m rh rb addr (-1)
      (wsp_http_map_url rules uri)
      (start_fetch_headers env none rh addr (-1) 0).2
      (start_fetch_headers env none rh addr (-1) 0).1
    refine ⟨hs, ?_⟩
    have hact : start_fetch_action env rules
        (.S_Unit_MethodInvoke_Ind tid uri m rh rb addr)
        = FetchAction.deliver HTTP_NOT_IMPLEMENTED [] [] 0 (-1)
            (wsp_http_map_url rules uri)
            (start_fetch_headers env none rh addr (-1) 0).2
            (start_fetch_headers env none rh addr (-1) 0).1 := by
      simp only [start_fetch_action]
      rw [if_neg (fun hK => h1 hK.1),
          if_neg (fun hK => hK.elim h1 (fun hK2 => hK2.elim h2 h3))]
    unfold start_fetch
    rw [hact]
    simpa using hrr

theorem claim_C8_witness :
    testPutEvent.method ≠ "GET".data
    ∧ testPutEvent.method ≠ "POST".data
    ∧ testPutEvent.method ≠ "HEAD".data
    ∧ ((start_fetch_action testEnv [] testPutEvent).isHttpRequest = false
       ∧ (start_fetch_action testEnv [] testPutEvent).deliverStatus?
           = some 501
       ∧ (start_fetch_action testEnv [] testPutEvent).deliverBody? = some []
       ∧ (start_fetch_action testEnv [] testPutEvent).deliverRespHeaders?
           = some [])
    ∧ ∃ hs, start_fetch testEnv [] testPutEvent
        = FetchOutcome.emitted
            { reply := WSPReply.S_Unit_MethodResult_Req
                { local_address := [], remote_address := [] } 9 501 hs [],
              referer_update := none } :=
  ⟨by decide, by decide, by decide,
   (claim_C8_unsupported_method testEnv [] testPutEvent (by decide) (by decide)
      (by decide)).1,
   (claim_C8_unsupported_method testEnv [] testPutEvent (by decide) (by decide)
      (by decide)).2 9 "http://x/y".data "PUT".data none none
     { local_address := [], remote_address := [] } rfl⟩

/-- The body leaving the SDU enforcement never exceeds a positive SDU
size. -/
theorem sdu_enforce_body_le (sdu_size status : Int) (c : Content)
    (hs : Headers) (h : sdu_size > 0) :
    (((sdu_enforce sdu_size status c hs).2.1.body).length : Int)
      ≤ sdu_size := by
  unfold sdu_enforce
  by_cases hc : (c.body.length : Int) > sdu_size ∧ sdu_size > 0
  · rw [if_pos hc]
    show (([] : CStr).length : Int) ≤ sdu_size
    simp
    omega
  · rw [if_neg hc]
    show ((c.body.length : Int)) ≤ sdu_size
    omega

/-- The emitted reply body never exceeds a positive SDU size: the SDU
enforcement is the last transformation before emission. -/
theorem return_reply_finalize_body_le (env : Env) (status : Int)
    (c : Content) (headers : Option Headers) (sdu_size : Int)
    (event : InvokeEvent) (session_id : Int) (xwt : Nat) (reqh : Headers)
    (h : sdu_size > 0) :
    (((return_reply_finalize env status c headers sdu_size event session_id
        xwt reqh).response_body).length : Int) ≤ sdu_size := by
  simp only [return_reply_finalize]
  cases event <;> exact sdu_enforce_body_le _ _ _ _ h

/-- C2: for every reply finalized by `return_reply` under a positive SDU
limit, the emitted body fits the limit; and the SDU-enforcement step
replaces an oversized body by the empty string, overriding the status to
502 exactly when it was 2xx and keeping a non-2xx status, while a body
within the limit passes through untouched. -/
theorem claim_C2_sdu_enforcement (env : Env) (status : Int)
    (content_body : Option CStr) (headers : Option Headers)
    (sdu_size : Int) (event : InvokeEvent) (session_id : Int) (url : CStr)
    (xwt : Nat) (request_headers : Headers)
    (st : Int) (c : Content) (hs : Headers)
    (hsdu : sdu_size > 0) :
    (((return_reply env status content_body headers sdu_size event
        session_id url xwt request_headers).reply.response_body).length : Int)
      ≤ sdu_size
    ∧ ((c.body.length : Int) > sdu_size →
        (sdu_enforce sdu_size st c hs).2.1.body = []
        ∧ (http_status_class st = HTTP_STATUS_SUCCESSFUL →
            (sdu_enforce sdu_size st c hs).1 = HTTP_BAD_GATEWAY)
        ∧ (http_status_class st ≠ HTTP_STATUS_SUCCESSFUL →
            (sdu_enforce sdu_size st c hs).1 = st))
    ∧ ((c.body.length : Int) ≤ sdu_size →
        sdu_enforce sdu_size st c hs = (st, c, hs)) := by
  refine ⟨?_, ?_, ?_⟩
  · unfold return_reply
    by_cases hst : status < 0
    · rw [if_pos hst]
      exact return_reply_finalize_body_le env _ _ _ sdu_size event session_id
        xwt request_headers hsdu
    · rw [if_neg hst]
      exact return_reply_finalize_body_le env _ _ _ sdu_size event session_id
        xwt request_headers hsdu
  · intro hbig
    unfold sdu_enforce
    rw [if_pos ⟨hbig, hsdu⟩]
    refine ⟨rfl, ?_, ?_⟩
    · intro h2
      show (if http_status_class st = HTTP_STATUS_SUCCESSFUL then
              HTTP_BAD_GATEWAY else st) = HTTP_BAD_GATEWAY
      rw [if_pos h2]
    · intro h2
      show (if http_status_class st = HTTP_STATUS_SUCCESSFUL then
              HTTP_BAD_GATEWAY else st) = st
      rw [if_neg h2]
  · intro hsmall
    unfold sdu_enforce
    rw [if_neg]
    omega

theorem claim_C2_witness :
    (5 : Int) > 0
    ∧ (((return_reply testEnv 200 (some "0123456789".data) (some []) 5
          testPutEvent (-1) "u".data 0 []).reply.response_body).length : Int)
        ≤ 5
    ∧ (sdu_enforce 5 200
         { body := "0123456789".data, type := "text/plain".data,
           charset := [], url := [] } []).2.1.body = []
    ∧ (sdu_enforce 5 200
         { body := "0123456789".data, type := "text/plain".data,
           charset := [], url := [] } []).1 = HTTP_BAD_GATEWAY
    ∧ (sdu_enforce 5 404
         { body := "ok".data, type := "text/plain".data,
           charset := [], url := [] } [])
        = (404, { body := "ok".data, type := "text/plain".data,
                  charset := [], url := [] }, []) := by
  have h1 := claim_C2_sdu_enforcement testEnv 200 (some "0123456789".data)
    (some []) 5 testPutEvent (-1) "u".data 0 [] 200
    { body := "0123456789".data, type := "text/plain".data, charset := [],
      url := [] } [] (by decide)
  have h2 := claim_C2_sdu_enforcement testEnv 200 (some "0123456789".data)
    (some []) 5 testPutEvent (-1) "u".data 0 [] 404
    { body := "ok".data, type := "text/plain".data, charset := [],
      url := [] } [] (by decide)
  exact ⟨by decide, h1.1, (h1.2.1 (by decide)).1,
         (h1.2.1 (by decide)).2.1 (by decide), h2.2.2 (by decide)⟩

/-- C9: on an HTTP-layer failure (status < 0), with `smart_errors`
disabled the reply is a plain `502 Bad Gateway` with content type
`text/plain` and an empty body (and the emitted event indeed carries
status 502 and an empty body); with `smart_errors` enabled the status
becomes 200 with content type `text/vnd.wap.wml` and the body is the WML
error deck linking back, in priority order, to the session's stored
referer URL, else the configured `device_home`, else a plain error deck
(the deck bundle then passes through the converter registry, as the
source does). -/
theorem claim_C9_http_failure_arms (env : Env) (status : Int)
    (content_body : Option CStr) (headers : Option Headers)
    (sdu_size : Int) (event : InvokeEvent) (session_id : Int) (url : CStr)
    (xwt : Nat) (request_headers : Headers) (hst : status < 0) :
    (env.wsp_smart_errors = false →
        return_reply_failure_arm env session_id url headers
          = (HTTP_BAD_GATEWAY,
             { body := [], type := "text/plain".data, charset := [],
               url := url },
             headers)
        ∧ (return_reply env status content_body headers sdu_size event
             session_id url xwt request_headers).reply.status = 502
        ∧ (return_reply env status content_body headers sdu_size event
             session_id url xwt request_headers).reply.response_body = [])
    ∧ (env.wsp_smart_errors = true →
        (return_reply_failure_arm env session_id url headers).1 = HTTP_OK
        ∧ (return_reply_failure_arm env session_id url headers).2.1
            = (convert_content (converters env)
                { body :=
                    match get_referer_url
                        (env.find_session_machine_by_id session_id) with
                    | some referer_url =>
                        env.error_requesting_back url referer_url
                    | none =>
                        match env.device_home with
                        | some home => env.error_requesting_back url home
                        | none => env.error_requesting url,
                  type := "text/vnd.wap.wml".data, charset := [],
                  url := url }).2) := by
  constructor
  · intro hsm
    have harm : return_reply_failure_arm env session_id url headers
        = (HTTP_BAD_GATEWAY,
           { body := [], type := "text/plain".data, charset := [],
             url := url },
           headers) := by
      unfold return_reply_failure_arm
      rw [hsm]
      simp
    refine ⟨harm, ?_, ?_⟩
    · cases event with
      | S_MethodInvoke_Ind stx sid2 uri m rh sh rb addr sdu2 =>
          obtain ⟨hs', hfin⟩ := return_reply_finalize_empty_body env
            HTTP_BAD_GATEWAY
            { body := [], type := "text/plain".data, charset := [],
              url := url }
            headers sdu_size (.S_MethodInvoke_Ind stx sid2 uri m rh sh rb
              addr sdu2) session_id xwt request_headers rfl
          simp only [return_reply, if_pos hst, harm]
          rw [hfin]
          rfl
      | S_Unit_MethodInvoke_Ind tid uri m rh rb addr =>
          obtain ⟨hs', hfin⟩ := return_reply_finalize_empty_body env
            HTTP_BAD_GATEWAY
            { body := [], type := "text/plain".data, charset := [],
              url := url }
            headers sdu_size (.S_Unit_MethodInvoke_Ind tid uri m rh rb addr)
            session_id xwt request_headers rfl
          simp only [return_reply, if_pos hst, harm]
          rw [hfin]
          rfl
    · cases event with
      | S_MethodInvoke_Ind stx sid2 uri m rh sh rb addr sdu2 =>
          obtain ⟨hs', hfin⟩ := return_reply_finalize_empty_body env
            HTTP_BAD_GATEWAY
            { body := [], type := "text/plain".data, charset := [],
              url := url }
            headers sdu_size (.S_MethodInvoke_Ind stx sid2 uri m rh sh rb
              addr sdu2) session_id xwt request_headers rfl
          simp only [return_reply, if_pos hst, harm]
          rw [hfin]
          rfl
      | S_Unit_MethodInvoke_Ind tid uri m rh rb addr =>
          obtain ⟨hs', hfin⟩ := return_reply_finalize_empty_body env
            HTTP_BAD_GATEWAY
            { body := [], type := "text/plain".data, charset := [],
              url := url }
            headers sdu_size (.S_Unit_MethodInvoke_Ind tid uri m rh rb addr)
            session_id xwt request_headers rfl
          simp only [return_reply, if_pos hst, harm]
          rw [hfin]
          rfl
  · intro hsm
    constructor
    · unfold return_reply_failure_arm
      rw [hsm]
      simp
    · unfold return_reply_failure_arm smart_error_body
      rw [hsm]
      simp

theorem claim_C9_witness :
    (-1 : Int) < 0
    ∧ return_reply_failure_arm testEnv (-1) "u".data none
        = (HTTP_BAD_GATEWAY,
           { body := [], type := "text/plain".data, charset := [],
             url := "u".data },
           none)
    ∧ (return_reply testEnv (-1) none none 0 testPutEvent (-1) "u".data 0
        []).reply.status = 502
    ∧ (return_reply testEnv (-1) none none 0 testPutEvent (-1) "u".data 0
        []).reply.response_body = []
    ∧ (return_reply_failure_arm testEnvSmart (-1) "u".data none).1 = HTTP_OK
    ∧ (return_reply_failure_arm testEnvSmart (-1) "u".data none).2.1
        = (convert_content (converters testEnvSmart)
            { body :=
                match get_referer_url
                    (testEnvSmart.find_session_machine_by_id (-1)) with
                | some referer_url =>
                    testEnvSmart.error_requesting_back "u".data referer_url
                | none =>
                    match testEnvSmart.device_home with
                    | some home =>
                        testEnvSmart.error_requesting_back "u".data home
                    | none => testEnvSmart.error_requesting "u".data,
              type := "text/vnd.wap.wml".data, charset := [],
              url := "u".data }).2 := by
  have h1 := claim_C9_http_failure_arms testEnv (-1) none none 0 testPutEvent
    (-1) "u".data 0 [] (by decide)
  have h2 := claim_C9_http_failure_arms testEnvSmart (-1) none none 0
    testPutEvent (-1) "u".data 0 [] (by decide)
  have hf : testEnv.wsp_smart_errors = false := rfl
  have ht : testEnvSmart.wsp_smart_errors = true := rfl
  exact ⟨by decide, (h1.1 hf).1, (h1.1 hf).2.1, (h1.1 hf).2.2, (h2.2 ht).1,
         (h2.2 ht).2⟩

/-- `nameEq` compares lower-cased names. -/
theorem nameEq_iff_lower (a b : CStr) :
    nameEq a b = true ↔ lowerStr a = lowerStr b := by
  simp [nameEq, ciEq]

/-- Membership survives `http_header_remove_all`. -/
theorem mem_of_mem_remove_all (hs : Headers) (n : CStr) (x : Header)
    (hx : x ∈ (http_header_remove_all hs n).1) : x ∈ hs :=
  (List.mem_filter.mp hx).1

/-- Membership in `http_header_add` is membership or the new header. -/
theorem mem_add (hs : Headers) (n v : CStr) (x : Header)
    (hx : x ∈ http_header_add hs n v) : x ∈ hs ∨ x = (n, v) := by
  rcases List.mem_append.mp hx with h | h
  · exact Or.inl h
  · exact Or.inr (List.mem_singleton.mp h)

/-- Every header added by `http_header_mark_transformation` is an entity
header (`Content-Length` or `Content-Type`), never hop-by-hop. -/
theorem hop_free_mark_transformation (hs : Headers) (b t : CStr)
    (hh : ∀ x ∈ hs, isHopName x.1 = false) :
    ∀ x ∈ http_header_mark_transformation hs b t, isHopName x.1 = false := by
  intro x hx
  unfold http_header_mark_transformation at hx
  rcases mem_add _ _ _ _ hx with hx1 | hx1
  · rcases mem_add _ _ _ _ hx1 with hx2 | hx2
    · exact hh x (mem_of_mem_remove_all _ _ _
        (mem_of_mem_remove_all _ _ _ (mem_of_mem_remove_all _ _ _ hx2)))
    · rw [hx2]
      show isHopName "Content-Length".data = false
      decide
  · rw [hx1]
    show isHopName "Content-Type".data = false
    decide

/-- The accept filter preserves hop-freeness of the header list. -/
theorem hop_free_accept_filter (status : Int) (reqh : Headers) (c : Content)
    (hs : Headers) (hh : ∀ x ∈ hs, isHopName x.1 = false) :
    ∀ x ∈ (accept_filter status reqh c hs).2, isHopName x.1 = false := by
  unfold accept_filter
  split
  · exact hop_free_mark_transformation _ _ _ hh
  · exact hh

/-- The SDU enforcement preserves hop-freeness of the header list. -/
theorem hop_free_sdu_enforce (sdu_size status : Int) (c : Content)
    (hs : Headers) (hh : ∀ x ∈ hs, isHopName x.1 = false) :
    ∀ x ∈ (sdu_enforce sdu_size status c hs).2.2, isHopName x.1 = false := by
  unfold sdu_enforce
  split
  · exact hop_free_mark_transformation _ _ _ hh
  · exact hh

/-- `http_remove_hop_headers` leaves no hop-by-hop header behind. -/
theorem hop_free_remove_hop (hs : Headers) :
    ∀ x ∈ http_remove_hop_headers hs, isHopName x.1 = false := by
  intro x hx
  have := (List.mem_filter.mp hx).2
  simpa using this

/-- `containsName` over `http_header_add`. -/
theorem containsName_add (hs : Headers) (n v a : CStr) :
    containsName (http_header_add hs n v) a
      = (containsName hs a || nameEq n a) := by
  simp [containsName, http_header_add]

/-- After `http_header_remove_all hs n`, no header named `n` remains. -/
theorem containsName_remove_all_self (hs : Headers) (n : CStr) :
    containsName (http_header_remove_all hs n).1 n = false := by
  rw [containsName, List.any_eq_false]
  intro x hx
  have := (List.mem_filter.mp hx).2
  simpa using this

/-- Removing headers named `b` does not affect whether some header named
`a` is present, when the two names differ case-insensitively. -/
theorem containsName_remove_all_other (hs : Headers) (a b : CStr)
    (hab : lowerStr a ≠ lowerStr b) :
    containsName (http_header_remove_all hs b).1 a = containsName hs a := by
  induction hs with
  | nil => rfl
  | cons hd tl ih =>
      simp only [containsName, http_header_remove_all, List.filter_cons]
        at ih ⊢
      by_cases hb : nameEq hd.1 b
      · have ha : nameEq hd.1 a = false := by
          rw [Bool.eq_false_iff]
          intro hcon
          exact hab (((nameEq_iff_lower hd.1 a).mp hcon).symm.trans
            ((nameEq_iff_lower hd.1 b).mp hb))
        simp [hb, ha, ih]
      · simp only [Bool.not_eq_true] at hb
        simp [hb, ih]

/-- `http_header_mark_transformation` does not affect whether an
`X-WAP.TOD` header is present. -/
theorem containsName_mark_transformation_xwaptod (hs : Headers)
    (b t : CStr) :
    containsName (http_header_mark_transformation hs b t) "X-WAP.TOD".data
      = containsName hs "X-WAP.TOD".data := by
  unfold http_header_mark_transformation
  rw [containsName_add, containsName_add,
      containsName_remove_all_other _ _ _ (by decide),
      containsName_remove_all_other _ _ _ (by decide),
      containsName_remove_all_other _ _ _ (by decide)]
  have h1 : nameEq "Content-Length".data "X-WAP.TOD".data = false := by decide
  have h2 : nameEq "Content-Type".data "X-WAP.TOD".data = false := by decide
  rw [h1, h2]
  simp

/-- Neither the accept filter nor the SDU enforcement affects whether an
`X-WAP.TOD` header is present. -/
theorem containsName_accept_filter_xwaptod (status : Int) (reqh : Headers)
    (c : Content) (hs : Headers) :
    containsName (accept_filter status reqh c hs).2 "X-WAP.TOD".data
      = containsName hs "X-WAP.TOD".data := by
  unfold accept_filter
  split
  · exact containsName_mark_transformation_xwaptod _ _ _
  · rfl

theorem containsName_sdu_enforce_xwaptod (sdu_size status : Int)
    (c : Content) (hs : Headers) :
    containsName (sdu_enforce sdu_size status c hs).2.2 "X-WAP.TOD".data
      = containsName hs "X-WAP.TOD".data := by
  unfold sdu_enforce
  split
  · exact containsName_mark_transformation_xwaptod _ _ _
  · rfl

/-- Hop-header stripping does not affect whether an `X-WAP.TOD` header is
present (it is not a hop-by-hop name). -/
theorem containsName_remove_hop_xwaptod (hs : Headers) :
    containsName (http_remove_hop_headers hs) "X-WAP.TOD".data
      = containsName hs "X-WAP.TOD".data := by
  induction hs with
  | nil => rfl
  | cons hd tl ih =>
      simp only [containsName, http_remove_hop_headers, List.filter_cons]
        at ih ⊢
      by_cases hhop : isHopName hd.1
      · have ha : nameEq hd.1 "X-WAP.TOD".data = false := by
          rw [Bool.eq_false_iff]
          intro hcon
          have hlow := (nameEq_iff_lower hd.1 "X-WAP.TOD".data).mp hcon
          have : isHopName hd.1 = isHopName "X-WAP.TOD".data := by
            simp [isHopName, nameEq, ciEq, hlow]
          rw [this] at hhop
          exact absurd hhop (by decide)
        simp [hhop, ha, ih]
      · simp only [Bool.not_eq_true] at hhop
        simp [hhop, ih]

/-- The count returned by `http_header_remove_all` is non-zero exactly
when a header with the given name was present. -/
theorem remove_all_count_ne_zero (hs : Headers) (n : CStr) :
    (http_header_remove_all hs n).2 ≠ 0 ↔ containsName hs n = true := by
  unfold http_header_remove_all containsName
  constructor
  · intro h
    have hpos : 0 < (hs.filter (fun x => nameEq x.1 n)).length :=
      Nat.pos_of_ne_zero h
    obtain ⟨x, hx⟩ := List.exists_mem_of_ne_nil _
      (List.length_pos.mp hpos)
    have := List.mem_filter.mp hx
    exact List.any_eq_true.mpr ⟨x, this.1, this.2⟩
  · intro h
    obtain ⟨x, hx, hpx⟩ := List.any_eq_true.mp h
    exact Nat.pos_iff_ne_zero.mp
      (List.length_pos.mpr (List.ne_nil_of_mem (List.mem_filter.mpr ⟨hx, hpx⟩)))

/-- The header list entering the accept filter inside the finalization is
hop-free: hop headers were just stripped, and only `X-WAP.TOD` may have
been added. -/
theorem hop_free_finalize_base (env : Env) (headers : Option Headers)
    (xwt : Nat) :
    ∀ x ∈ (if xwt ≠ 0 then
             add_x_wap_tod env
               (http_header_remove_all
                 (http_remove_hop_headers (headers.getD []))
                 "X-WAP.TOD".data).1
           else
             (http_header_remove_all
               (http_remove_hop_headers (headers.getD []))
               "X-WAP.TOD".data).1),
      isHopName x.1 = false := by
  intro x hx
  split at hx
  · unfold add_x_wap_tod at hx
    rcases mem_add _ _ _ _ hx with h | h
    · exact hop_free_remove_hop _ x (mem_of_mem_remove_all _ _ _ h)
    · rw [h]
      show isHopName "X-WAP.TOD".data = false
      decide
  · exact hop_free_remove_hop _ x (mem_of_mem_remove_all _ _ _ hx)

/-- Every reply finalized by `return_reply` carries no hop-by-hop
header. -/
theorem return_reply_finalize_hop_free (env : Env) (status : Int)
    (c : Content) (headers : Option Headers) (sdu_size : Int)
    (event : InvokeEvent) (session_id : Int) (xwt : Nat) (reqh : Headers) :
    ∀ x ∈ (return_reply_finalize env status c headers sdu_size event
        session_id xwt reqh).response_headers,
      isHopName x.1 = false := by
  simp only [return_reply_finalize]
  cases event with
  | S_MethodInvoke_Ind stx sid2 uri m rh sh rb addr sdu2 =>
      intro x hx
      simp only [WSPReply.response_headers] at hx
      exact hop_free_sdu_enforce _ _ _ _
        (hop_free_accept_filter _ _ _ _ (hop_free_finalize_base env headers
          xwt)) x hx
  | S_Unit_MethodInvoke_Ind tid uri m rh rb addr =>
      intro x hx
      simp only [WSPReply.response_headers] at hx
      exact hop_free_sdu_enforce _ _ _ _
        (hop_free_accept_filter _ _ _ _ (hop_free_finalize_base env headers
          xwt)) x hx

/-- Every reply finalized by `return_reply` carries an `X-WAP.TOD` header
exactly when the recorded request flag was set. -/
theorem return_reply_finalize_xwaptod (env : Env) (status : Int)
    (c : Content) (headers : Option Headers) (sdu_size : Int)
    (event : InvokeEvent) (session_id : Int) (xwt : Nat) (reqh : Headers) :
    (containsName (return_reply_finalize env status c headers sdu_size event
        session_id xwt reqh).response_headers "X-WAP.TOD".data = true)
      ↔ xwt ≠ 0 := by
  simp only [return_reply_finalize]
  cases event <;>
  · simp only [WSPReply.response_headers]
    rw [containsName_sdu_enforce_xwaptod, containsName_accept_filter_xwaptod]
    by_cases hx : xwt ≠ 0
    · rw [if_pos hx]
      unfold add_x_wap_tod
      rw [containsName_add, containsName_remove_all_self]
      simp only [Bool.false_or]
      simp [hx, nameEq, ciEq]
    · rw [if_neg hx]
      rw [containsName_remove_all_self]
      simp [hx]

/-- C3: every reply emitted by `return_reply` — on all arms — carries no
hop-by-hop header and carries an `X-WAP.TOD` header exactly when the
`x_wap_tod` flag is set; and the flag recorded by `start_fetch` is set
exactly when the combined client request headers carried an `X-WAP.TOD`
header. -/
theorem claim_C3_reply_header_invariants (env : Env) (status : Int)
    (content_body : Option CStr) (headers : Option Headers)
    (sdu_size : Int) (event : InvokeEvent) (session_id : Int) (url : CStr)
    (xwt : Nat) (request_headers : Headers)
    (session_headers client_request_headers : Option Headers)
    (addr_tuple : WAPAddrTuple) (sid2 sdu2 : Int) :
    (∀ x ∈ (return_reply env status content_body headers sdu_size event
        session_id url xwt request_headers).reply.response_headers,
        isHopName x.1 = false)
    ∧ (containsName (return_reply env status content_body headers sdu_size
          event session_id url xwt
          request_headers).reply.response_headers "X-WAP.TOD".data = true
        ↔ xwt ≠ 0)
    ∧ ((start_fetch_headers env session_headers client_request_headers
          addr_tuple sid2 sdu2).2 ≠ 0
        ↔ containsName
            (match client_request_headers with
             | some rh =>
                 http_header_combine
                   (match session_headers with
                    | some sh => http_header_combine [] sh
                    | none => [])
                   rh
             | none =>
                 match session_headers with
                 | some sh => http_header_combine [] sh
                 | none => [])
            "X-WAP.TOD".data = true) := by
  refine ⟨?_, ?_, ?_⟩
  · unfold return_reply
    by_cases hst : status < 0
    · rw [if_pos hst]
      exact return_reply_finalize_hop_free env _ _ _ sdu_size event
        session_id xwt request_headers
    · rw [if_neg hst]
      exact return_reply_finalize_hop_free env _ _ _ sdu_size event
        session_id xwt request_headers
  · unfold return_reply
    by_cases hst : status < 0
    · rw [if_pos hst]
      exact return_reply_finalize_xwaptod env _ _ _ sdu_size event
        session_id xwt request_headers
    · rw [if_neg hst]
      exact return_reply_finalize_xwaptod env _ _ _ sdu_size event
        session_id xwt request_headers
  · cases session_headers <;> cases client_request_headers <;>
    · simp only [start_fetch_headers]
      rw [remove_all_count_ne_zero, containsName_remove_hop_xwaptod]

theorem claim_C3_witness :
    (("X-WAP.TOD".data, testEnv.date_format_http_now)
        ∈ (return_reply testEnv 501 (some []) (some []) 0 testPutEvent (-1)
            "u".data 1 []).reply.response_headers)
    ∧ isHopName ("X-WAP.TOD".data, testEnv.date_format_http_now).1 = false
    ∧ (containsName (return_reply testEnv 501 (some []) (some []) 0
          testPutEvent (-1) "u".data 1 []).reply.response_headers
          "X-WAP.TOD".data = true ↔ (1 : Nat) ≠ 0)
    ∧ ((start_fetch_headers testEnv none
          (some [("X-WAP.TOD".data, "t".data)])
          { local_address := [], remote_address := [] } (-1) 0).2 ≠ 0
        ↔ containsName
            (match (some [("X-WAP.TOD".data, "t".data)] : Option Headers) with
             | some rh =>
                 http_header_combine
                   (match (none : Option Headers) with
                    | some sh => http_header_combine [] sh
                    | none => [])
                   rh
             | none =>
                 match (none : Option Headers) with
                 | some sh => http_header_combine [] sh
                 | none => [])
            "X-WAP.TOD".data = true) := by
  have T := claim_C3_reply_header_invariants testEnv 501 (some []) (some [])
    0 testPutEvent (-1) "u".data 1 [] none
    (some [("X-WAP.TOD".data, "t".data)])
    { local_address := [], remote_address := [] } (-1) 0
  exact ⟨by decide, T.1 _ (by decide), T.2.1, T.2.2⟩

/-- `strncasecmp` with count `strlen(v) + 1` (the terminating NUL
included) is full case-insensitive string equality. -/
theorem cstrncaseeq_full (v : CStr) :
    ∀ u : CStr, cstrncaseeq u v (v.length + 1) = (lowerStr u == lowerStr v) := by
  induction v with
  | nil =>
      intro u
      cases u with
      | nil => rfl
      | cons a as => rfl
  | cons b bs ih =>
      intro u
      cases u with
      | nil => rfl
      | cons a as =>
          show ((lowerChar a == lowerChar b)
              && cstrncaseeq as bs (bs.length + 1)) = _
          rw [ih as]
          rfl

/-- `strncasecmp` with a count not exceeding `strlen(v)` is a
case-insensitive comparison of the leading `n` octets, which `u` must
actually have. -/
theorem cstrncaseeq_trunc :
    ∀ (n : Nat) (v u : CStr), n ≤ v.length →
      cstrncaseeq u v n
        = (decide (n ≤ u.length)
            && (lowerStr (u.take n) == lowerStr (v.take n))) := by
  intro n
  induction n with
  | zero => intro v u h; simp [cstrncaseeq, lowerStr]
  | succ n ih =>
      intro v u h
      cases v with
      | nil => simp at h
      | cons b bs =>
          cases u with
          | nil => simp [cstrncaseeq]
          | cons a as =>
              show ((lowerChar a == lowerChar b) && cstrncaseeq as bs n) = _
              rw [ih bs as (by simpa using h)]
              simp only [List.take_succ_cons, lowerStr, List.map_cons,
                List.length_cons, List.cons_beq_cons, Nat.succ_le_succ_iff]
              cases h1 : (lowerChar a == lowerChar b) <;>
                cases h2 : decide (n ≤ as.length) <;> simp [lowerStr]

/-- `wsp_http_map_url_do_config` only appends to the rule list. -/
theorem url_map_do_config_append (rules : List WspHttpMapRule)
    (src dst : CStr) :
    wsp_http_map_url_do_config rules src dst
      = rules ++ wsp_http_map_url_do_config [] src dst := by
  unfold wsp_http_map_url_do_config
  by_cases h : src = [] <;> simp [h]

/-- The rule appended for one configuration pair. -/
theorem url_map_do_config_nil (src dst : CStr) :
    wsp_http_map_url_do_config [] src dst
      = if src = [] then [] else [url_map_rule_of src dst] := by
  unfold wsp_http_map_url_do_config url_map_rule_of
  by_cases h : src = [] <;> simp [h]

/-- Unrolling `url_map_build` one configuration pair at a time. -/
theorem url_map_build_cons (p : CStr × CStr) (ps : List (CStr × CStr)) :
    url_map_build (p :: ps)
      = (if p.1 = [] then [] else [url_map_rule_of p.1 p.2])
          ++ url_map_build ps := by
  have hacc : ∀ (qs : List (CStr × CStr)) (acc : List WspHttpMapRule),
      qs.foldl (fun rules q => wsp_http_map_url_do_config rules q.1 q.2) acc
        = acc ++ qs.foldl
            (fun rules q => wsp_http_map_url_do_config rules q.1 q.2) [] := by
    intro qs
    induction qs with
    | nil => intro acc; simp
    | cons q qs ih =>
        intro acc
        simp only [List.foldl_cons]
        rw [ih (wsp_http_map_url_do_config acc q.1 q.2),
            ih (wsp_http_map_url_do_config [] q.1 q.2),
            url_map_do_config_append acc q.1 q.2, List.append_assoc]
  unfold url_map_build
  simp only [List.foldl_cons]
  rw [hacc ps, url_map_do_config_nil]

/-- The rule built from a non-empty source pattern matches a URL exactly
when the spec-side matcher does: a trailing `*` gives a case-insensitive
comparison of the leading octets, no `*` gives full case-insensitive
equality (NUL included). -/
theorem rule_match_eq_spec (src dst u : CStr) (_h : src ≠ []) :
    cstrncaseeq u (url_map_rule_of src dst).in_pat
        (url_map_rule_of src dst).in_len
      = url_map_matches_spec src u := by
  unfold url_map_rule_of url_map_matches_spec
  by_cases hs : endsStar src
  · simp only [hs, if_true]
    rw [cstrncaseeq_trunc (src.length - 1) src u (by omega)]
  · simp only [hs]
    rw [if_neg (by simp), if_neg (by simp)]
    exact cstrncaseeq_full src u

/-- On a match, the rule's output equals the spec's output: destination
minus its trailing `*`, with the URL tail appended exactly when both
patterns carried the `*` marker. -/
theorem rule_output_eq_spec (src dst u : CStr) :
    ((url_map_rule_of src dst).out_pat.take (url_map_rule_of src dst).out_len
      ++ (if (url_map_rule_of src dst).instar
            && (url_map_rule_of src dst).outstar
          then u.drop (url_map_rule_of src dst).in_len else []))
      = ((if endsStar dst then dst.take (dst.length - 1) else dst)
          ++ (if endsStar src && endsStar dst then u.drop (src.length - 1)
              else [])) := by
  unfold url_map_rule_of
  by_cases hs : endsStar src <;> by_cases hd : endsStar dst <;>
    simp [hs, hd, List.take_length]

/-- A non-matching head rule is skipped by the rewrite. -/
theorem wsp_http_map_url_cons_skip (r : WspHttpMapRule)
    (rs : List WspHttpMapRule) (u : CStr)
    (h : cstrncaseeq u r.in_pat r.in_len = false) :
    wsp_http_map_url (r :: rs) u = wsp_http_map_url rs u := by
  have hfind : wsp_http_map_find (r :: rs) u = wsp_http_map_find rs u := by
    unfold wsp_http_map_find
    simp [List.find?, h]
  unfold wsp_http_map_url
  rw [hfind]

/-- A matching head rule is selected by the rewrite. -/
theorem wsp_http_map_url_cons_hit (r : WspHttpMapRule)
    (rs : List WspHttpMapRule) (u : CStr)
    (h : cstrncaseeq u r.in_pat r.in_len = true) :
    wsp_http_map_url (r :: rs) u
      = r.out_pat.take r.out_len
          ++ (if r.instar && r.outstar then u.drop r.in_len else []) := by
  have hfind : wsp_http_map_find (r :: rs) u = some r := by
    unfold wsp_http_map_find
    simp [List.find?, h]
  unfold wsp_http_map_url
  rw [hfind]
  by_cases hio : (r.instar && r.outstar) = true <;> simp [hio]

/-- A configuration pair whose predicate fails is transparent to the
spec-side rewrite. -/
theorem url_map_rewrite_spec_cons_skip (p : CStr × CStr)
    (ps : List (CStr × CStr)) (u : CStr)
    (h : (!p.1.isEmpty && url_map_matches_spec p.1 u) = false) :
    url_map_rewrite_spec (p :: ps) u = url_map_rewrite_spec ps u := by
  have hfind : (p :: ps).find?
        (fun q => !q.1.isEmpty && url_map_matches_spec q.1 u)
      = ps.find? (fun q => !q.1.isEmpty && url_map_matches_spec q.1 u) := by
    simp [List.find?, h]
  unfold url_map_rewrite_spec
  rw [hfind]

/-- A configuration pair whose predicate holds is selected by the
spec-side rewrite. -/
theorem url_map_rewrite_spec_cons_hit (p : CStr × CStr)
    (ps : List (CStr × CStr)) (u : CStr)
    (h : (!p.1.isEmpty && url_map_matches_spec p.1 u) = true) :
    url_map_rewrite_spec (p :: ps) u
      = ((if endsStar p.2 then p.2.take (p.2.length - 1) else p.2)
          ++ (if endsStar p.1 && endsStar p.2 then u.drop (p.1.length - 1)
              else [])) := by
  have hfind : (p :: ps).find?
        (fun q => !q.1.isEmpty && url_map_matches_spec q.1 u) = some p := by
    simp [List.find?, h]
  unfold url_map_rewrite_spec
  rw [hfind]
  by_cases hio : (endsStar p.1 && endsStar p.2) = true <;> simp [hio]

/-- The rewrite over the built rule list coincides with the spec-side
rewrite over the configuration pairs. -/
theorem url_map_url_eq_spec (pairs : List (CStr × CStr)) (u : CStr) :
    wsp_http_map_url (url_map_build pairs) u = url_map_rewrite_spec pairs u := by
  induction pairs with
  | nil => rfl
  | cons p ps ih =>
      rw [url_map_build_cons]
      by_cases hp : p.1 = []
      · rw [if_pos hp, List.nil_append, ih,
            url_map_rewrite_spec_cons_skip p ps u (by simp [hp])]
      · have hie : p.1.isEmpty = false := by
          cases hq : p.1 with
          | nil => exact absurd hq hp
          | cons a as => rfl
        rw [if_neg hp, List.singleton_append]
        by_cases hm : url_map_matches_spec p.1 u = true
        · rw [wsp_http_map_url_cons_hit _ _ _
              (by rw [rule_match_eq_spec p.1 p.2 u hp]; exact hm),
            url_map_rewrite_spec_cons_hit p ps u (by simp [hie, hm])]
          exact rule_output_eq_spec p.1 p.2 u
        · have hm' : url_map_matches_spec p.1 u = false := by
            simpa using hm
          rw [wsp_http_map_url_cons_skip _ _ _
              (by rw [rule_match_eq_spec p.1 p.2 u hp]; exact hm'),
            url_map_rewrite_spec_cons_skip p ps u (by simp [hm'])]
          exact ih

/-- C4: the configured rewrite scans rules in insertion order and picks
the first match — a `*`-suffixed pattern matching its leading octets
case-insensitively, a plain pattern requiring full case-insensitive
equality (terminating NUL included); the result is the out pattern with
the URL tail (original case) appended exactly when both IN and OUT
carry the `*` marker, and a URL matching no rule is returned unchanged —
with the spec's concrete example. -/
theorem claim_C4_url_map_rewrite (pairs : List (CStr × CStr)) (u : CStr) :
    wsp_http_map_url (url_map_build pairs) u = url_map_rewrite_spec pairs u
    ∧ wsp_http_map_url
        (url_map_build [("http://a/*".data, "http://b/*".data)])
        "http://a/page?x=1".data = "http://b/page?x=1".data
    ∧ wsp_http_map_url
        (url_map_build [("http://a/*".data, "http://b/*".data)])
        "http://c/page".data = "http://c/page".data :=
  ⟨url_map_url_eq_spec pairs u, by decide, by decide⟩
